import Mathlib

/-!
Verification development for the api-gateway statistics endpoints.

The repository computes per-address yield statistics (APY/APR/earn multiplier)
from snapshot rows of liquidity pools. The core logic lives in the functions
calculateRatio, getPoolsEntries, getPoolsStats and the per-address loop of the
request handlers (src/unnamed/part_001, src/unnamed/part_000, src/api/stats.ts;
part_001 and part_000 contain the canonical getPoolsStats used below).

Numeric values are decimal.js Decimal objects. A Decimal is NaN, +Infinity,
-Infinity, or a finite decimal number. We model a Decimal value as the
inductive type DecVal below, with finite values carried as exact rationals.
decimal.js rounds the result of div/pow to the configured significant-digit
precision (default 20); every value exercised by the claims is exact well
within that precision, so finite arithmetic is modelled exactly. Non-integer
powers of a positive base (computed by decimal.js via exp/ln to the working
precision) are modelled by an abstract finite positive value, since no claim
depends on their magnitude. Special-value propagation (NaN, ±Infinity,
division by zero, the ECMAScript Math.pow table used by Decimal.pow when an
operand is NaN, ±Infinity or zero) is modelled faithfully, from the decimal.js
sources.

Timestamps (JS Date) are modelled as integer milliseconds since the Unix
epoch; the proleptic Gregorian calendar functions used by getDate/setUTCDate
follow the ECMAScript specification (floor-based day numbers, civil
year/month/day conversion).
-/

set_option maxRecDepth 40000

namespace ApiGateway

/-- A decimal.js Decimal value: NaN, an infinity (the flag is true for
+Infinity, false for -Infinity), or a finite number, carried exactly. -/
inductive DecVal where
  | nan : DecVal
  | inf : Bool → DecVal
  | fin : ℚ → DecVal
deriving DecidableEq

/-- decimal.js division x.div(y): NaN propagates; Infinity/Infinity is NaN;
a nonzero finite value divided by zero is a signed Infinity; zero divided by
zero is NaN; a finite value divided by an infinity is zero. Finite division
is exact in this model (decimal.js rounds to 20 significant digits; all values
exercised here are exact within that precision). -/
def divD : DecVal → DecVal → DecVal
  | .nan, _ => .nan
  | _, .nan => .nan
  | .inf _, .inf _ => .nan
  | .inf p, .fin q => if q < 0 then .inf (!p) else .inf p
  | .fin _, .inf _ => .fin 0
  | .fin a, .fin b =>
      if b = 0 then (if a = 0 then .nan else .inf (decide (0 < a)))
      else .fin (a / b)

/-- decimal.js subtraction x.sub(y) on extended values. -/
def subD : DecVal → DecVal → DecVal
  | .nan, _ => .nan
  | _, .nan => .nan
  | .inf p, .inf q => if p = q then .nan else .inf p
  | .inf p, .fin _ => .inf p
  | .fin _, .inf q => .inf (!q)
  | .fin a, .fin b => .fin (a - b)

/-- decimal.js multiplication x.mul(y) on extended values; an infinity times
zero is NaN. -/
def mulD : DecVal → DecVal → DecVal
  | .nan, _ => .nan
  | _, .nan => .nan
  | .inf p, .inf q => .inf (p == q)
  | .inf p, .fin q => if q = 0 then .nan else .inf (p == decide (0 < q))
  | .fin q, .inf p => if q = 0 then .nan else .inf (p == decide (0 < q))
  | .fin a, .fin b => .fin (a * b)

/-- Whether a rational is an odd integer (used by the ECMAScript pow table for
negative-zero/negative-infinity bases). -/
def qOddInt (q : ℚ) : Bool := q.den == 1 && q.num % 2 ≠ 0

/-- The ECMAScript Math.pow special-value table, as used by decimal.js
toPower when either operand is NaN, ±Infinity or zero (decimal.js then
returns new Decimal(Math.pow(+x, +y))). An exponent of zero yields 1 even
for a NaN base. The final finite-finite case is unreachable from powD. -/
def mathPow : DecVal → DecVal → DecVal
  | _, .fin 0 => .fin 1
  | .nan, _ => .nan
  | _, .nan => .nan
  | .fin a, .inf p =>
      if a = 1 ∨ a = -1 then .nan
      else if 1 < |a| then (if p then .inf true else .fin 0)
      else (if p then .fin 0 else .inf true)
  | .inf _, .inf p => if p then .inf true else .fin 0
  | .inf true, .fin b => if 0 < b then .inf true else .fin 0
  | .inf false, .fin b =>
      if 0 < b then (if qOddInt b then .inf false else .inf true)
      else .fin 0
  | .fin a, .fin b =>
      if a = 0 then (if 0 < b then .fin 0 else .inf true)
      else .nan

/-- Abstraction of the decimal.js exp/ln-based power computation for a finite
positive base (not 0 or 1) and a finite non-integer exponent: decimal.js
returns a finite positive approximation of a ^ b rounded to the working
precision. No verified property depends on its magnitude, so it is modelled
by a fixed finite positive value. -/
def approxPow (_ : ℚ) (_ : ℚ) : ℚ := 1

/-- decimal.js x.pow(y) (toPower), from its source: if either operand is NaN,
±Infinity or zero the ECMAScript Math.pow table applies; a base equal to 1 is
returned unchanged; an exponent of 1 returns the base; an integer exponent is
computed by exponentiation by squaring (negative exponents via the inverse); a
negative base with a non-integer exponent yields NaN; otherwise the exp/ln
approximation is used. -/
def powD (x y : DecVal) : DecVal :=
  match x, y with
  | .nan, _ => mathPow x y
  | _, .nan => mathPow x y
  | .inf _, _ => mathPow x y
  | _, .inf _ => mathPow x y
  | .fin a, .fin b =>
      if a = 0 ∨ b = 0 then mathPow (.fin a) (.fin b)
      else if a = 1 then .fin 1
      else if b = 1 then .fin a
      else if b.den = 1 then
        (if 0 ≤ b.num then .fin (a ^ b.num.toNat)
         else .fin ((a ^ (-b.num).toNat)⁻¹))
      else if a < 0 then .nan
      else .fin (approxPow a b)

/-- Zero-padding of a digit string on the left to the given width. -/
def padZeros (k : ℕ) (s : String) : String :=
  String.mk (List.replicate (k - s.length) (Char.ofNat 48)) ++ s

/-- decimal.js toFixed(6): NaN prints as a NaN string, infinities print as
signed Infinity strings, and a finite value is rounded to exactly six decimal
places with ROUND_HALF_UP (half away from zero, the decimal.js default) and
printed with the sign, the integer part, a point and six fractional digits. -/
def toFixed6 : DecVal → String
  | .nan => "NaN"
  | .inf p => if p then "Infinity" else "-Infinity"
  | .fin q =>
      let n : ℤ := Int.floor (|q| * 1000000 + 1 / 2)
      let m : ℕ := n.toNat
      (if q < 0 then "-" else "") ++
        (Nat.repr (m / 1000000)) ++ "." ++ padZeros 6 (Nat.repr (m % 1000000))

/-- Number of factors of p in n, together with the remaining cofactor
(fuel-based; the fuel n suffices since p ≥ 2). -/
def stripFacAux (p : ℕ) : ℕ → ℕ → ℕ × ℕ
  | 0, n => (0, n)
  | fuel + 1, n =>
      if n ≠ 0 ∧ n % p = 0 ∧ 2 ≤ p then
        let r := stripFacAux p fuel (n / p)
        (r.1 + 1, r.2)
      else (0, n)

/-- Strip all factors of p from n. -/
def stripFac (p n : ℕ) : ℕ × ℕ := stripFacAux p n n

/-- The least k with q * 10 ^ k an integer, when one exists (that is, when the
reduced denominator of q has only the prime factors 2 and 5). -/
def decExp (q : ℚ) : Option ℕ :=
  let r2 := stripFac 2 q.den
  let r5 := stripFac 5 r2.2
  if r5.2 = 1 then some (max r2.1 r5.1) else none

/-- decimal.js toString: NaN and infinities print as their names; a finite
value prints as its exact decimal expansion with no trailing zeros (the
stored value of a Decimal is always a finite decimal, so the expansion
terminates; the non-terminating branch is unreachable for values decimal.js
produces and yields a marker string; exponential notation for extreme
exponents is not exercised by any claim and is not modelled). -/
def toStringD : DecVal → String
  | .nan => "NaN"
  | .inf p => if p then "Infinity" else "-Infinity"
  | .fin q =>
      match decExp q with
      | none => "nonterminating"
      | some k =>
          let m : ℕ := (|q| * 10 ^ k).num.toNat
          (if q < 0 then "-" else "") ++
            (if k = 0 then Nat.repr m
             else Nat.repr (m / 10 ^ k) ++ "." ++ padZeros k (Nat.repr (m % 10 ^ k)))

/-- The numeric value of a decimal digit character, when it is one. -/
def digitVal (c : Char) : Option ℕ :=
  if c.isDigit then some (c.toNat - 48) else none

/-- Value of a nonempty all-digit character list, read in base 10. -/
def digitsVal (cs : List Char) : Option ℕ :=
  if cs.isEmpty then none
  else cs.foldlM (fun acc c => (digitVal c).map (fun d => acc * 10 + d)) 0

/-- Parse an unsigned decimal literal: digits, optionally followed by a point
and further digits; a leading or trailing point is allowed when the other
side has digits (the subset of the decimal.js input grammar the snapshot
store uses; exponent notation is not exercised). -/
def parseUnsigned (cs : List Char) : Option ℚ :=
  let ip := cs.takeWhile (fun c => c ≠ Char.ofNat 46)
  let rest := cs.dropWhile (fun c => c ≠ Char.ofNat 46)
  match rest with
  | [] => (digitsVal ip).map (fun n => (n : ℚ))
  | _ :: fp =>
      if ip.isEmpty then
        (digitsVal fp).map (fun f => (f : ℚ) / 10 ^ fp.length)
      else if fp.isEmpty then
        (digitsVal ip).map (fun n => (n : ℚ))
      else do
        let n ← digitsVal ip
        let f ← digitsVal fp
        some ((n : ℚ) + (f : ℚ) / 10 ^ fp.length)

/-- Parse a signed decimal literal, as the decimal.js constructor does for
the string encodings stored by the snapshot store; none models the
constructor throwing a DecimalError on an invalid string. -/
def parseDec (s : String) : Option ℚ :=
  match s.toList with
  | [] => none
  | c :: cs =>
      if c = Char.ofNat 45 then (parseUnsigned cs).map Neg.neg
      else if c = Char.ofNat 43 then parseUnsigned cs
      else parseUnsigned (c :: cs)

/-- The decimal.js constructor on a string, producing a finite Decimal value;
none models the thrown DecimalError. -/
def decimalOfString (s : String) : Option DecVal :=
  (parseDec s).map .fin

/-- A snapshot row of the pools table (Prisma model Pools / PolygonPool /
OptimismPool): address, block height, block time (milliseconds since the Unix
epoch, as a JS Date), and the two fixed-point decimal-as-string columns. -/
structure Pools where
  address : String
  block : ℤ
  blockTime : ℤ
  totalShares : String
  currentUsdBalance : String
deriving DecidableEq

/-- The per-address working set of reference snapshots (interface
PoolsEntries). -/
structure PoolsEntries where
  firstEntry : Option Pools
  lastEntry : Option Pools
  weeklyEntry : Option Pools
  yesterdayEntry : Option Pools
deriving DecidableEq

/-- One output row (interface PoolsStats). -/
structure PoolsStats where
  address : String
  baseApy : String
  avgApy : String
  dailyBasedApr : String
  weeklyBasedApr : String
  earnMultiplier : String
deriving DecidableEq

/-- USD_SCALE = 1e6. -/
def USD_SCALE : ℚ := 1000000

/-- SHARES_SCALE = 1e6. -/
def SHARES_SCALE : ℚ := 1000000

/-- calculateRatio (src/unnamed/part_001 lines 93-103): null maps to null;
otherwise decode currentUsdBalance and totalShares with the Decimal
constructor, divide each by its scale and return their quotient. The outer
Option models abnormal termination (a DecimalError from the constructor);
the inner Option models the null result. -/
def calculateRatio : Option Pools → Option (Option DecVal)
  | none => some none
  | some p => do
      let u ← decimalOfString p.currentUsdBalance
      let t ← decimalOfString p.totalShares
      some (some (divD (divD u (.fin USD_SCALE)) (divD t (.fin SHARES_SCALE))))

/-- Ceiling of the integer division a / b for positive b, written with floor
division (this is Math.ceil applied to the exact quotient; the claims only
exercise exact multiples, where the double rounding of the JS division cannot
change the ceiling). -/
def ceilDiv (a b : ℤ) : ℤ := -((-a).fdiv b)

/-- daysElapsedSinceIndexed (getPoolsStats lines 113-119): zero unless both
the first and last entries exist, in which case it is the ceiling of the
block-time delta in days. -/
def daysElapsed (pe : PoolsEntries) : ℤ :=
  match pe.firstEntry, pe.lastEntry with
  | some f, some l => ceilDiv (l.blockTime - f.blockTime) 86400000
  | _, _ => 0

/-- The JS number DAYS_IN_YEAR / daysElapsedSinceIndexed passed to pow:
positive infinity when the day count is zero (365 / 0 in JS), otherwise the
quotient (modelled exactly; the claims only exercise exactly representable
quotients). -/
def baseApyExponent (d : ℤ) : DecVal :=
  if d = 0 then .inf true else .fin (365 / (d : ℚ))

/-- getPoolsStats (src/unnamed/part_001 lines 105-174): computes the three
ratios, the elapsed-days count, and the five output fields, with the literal
placeholders used when a required ratio is null. The Option models abnormal
termination of the whole computation (a DecimalError thrown from
calculateRatio). -/
def getPoolsStats (address : String) (pe : PoolsEntries) : Option PoolsStats := do
  let lastRatio ← calculateRatio pe.lastEntry
  let weeklyRatio ← calculateRatio pe.weeklyEntry
  let yesterdayRatio ← calculateRatio pe.yesterdayEntry
  let d := daysElapsed pe
  let baseApy :=
    match lastRatio with
    | none => "calculating.."
    | some r =>
        toFixed6 (mulD (subD (powD r (baseApyExponent d)) (.fin 1)) (.fin 100))
  let avgApy :=
    match weeklyRatio, lastRatio with
    | some w, some l =>
        toFixed6 (mulD (subD (powD (divD l w) (.fin (365 / 7))) (.fin 1)) (.fin 100))
    | _, _ => "calculating.."
  let dailyApr :=
    match lastRatio, yesterdayRatio with
    | some l, some y =>
        toFixed6 (mulD (mulD (subD (divD l y) (.fin 1)) (.fin 365)) (.fin 100))
    | _, _ => "calculating.."
  let weeklyApr :=
    match lastRatio, weeklyRatio with
    | some l, some w =>
        toFixed6 (mulD (mulD (subD (divD l w) (.fin 1)) (.fin (365 / 7))) (.fin 100))
    | _, _ => "calculating.."
  let earnMultiplier :=
    match lastRatio, yesterdayRatio with
    | some l, some y => toStringD (subD l y)
    | _, _ => "0"
  some {
    address := address
    baseApy := baseApy
    avgApy := avgApy
    dailyBasedApr := dailyApr
    weeklyBasedApr := weeklyApr
    earnMultiplier := earnMultiplier
  }

/-- Milliseconds per day. -/
def msPerDay : ℤ := 86400000

/-- Civil (proleptic Gregorian) date of a day number (days since 1970-01-01),
as ECMAScript Date computes it: returns (year, month 1..12, day 1..31). -/
def civilFromDays (g : ℤ) : ℤ × ℤ × ℤ :=
  let z := g + 719468
  let era := z.fdiv 146097
  let doe := z - era * 146097
  let yoe := (doe - doe.fdiv 1460 + doe.fdiv 36524 - doe.fdiv 146096).fdiv 365
  let y := yoe + era * 400
  let doy := doe - (365 * yoe + yoe.fdiv 4 - yoe.fdiv 100)
  let mp := (5 * doy + 2).fdiv 153
  let d := doy - (153 * mp + 2).fdiv 5 + 1
  let m := mp + (if mp < 10 then 3 else -9)
  (y + (if m ≤ 2 then 1 else 0), m, d)

/-- Day number (days since 1970-01-01) of a civil date, the inverse of
civilFromDays. -/
def daysFromCivil (y m d : ℤ) : ℤ :=
  let y := y - (if m ≤ 2 then 1 else 0)
  let era := y.fdiv 400
  let yoe := y - era * 400
  let doy := (153 * (m + (if 2 < m then -3 else 9)) + 2).fdiv 5 + d - 1
  let doe := yoe * 365 + yoe.fdiv 4 - yoe.fdiv 100 + doy
  era * 146097 + doe - 719468

/-- JS Date.prototype.getDate() on a host whose getTimezoneOffset() is tzOff
minutes: the day of month of the LOCAL civil date, where local time is UTC
minus tzOff minutes. -/
def dateGetDate (t tzOff : ℤ) : ℤ :=
  (civilFromDays ((t - tzOff * 60000).fdiv msPerDay)).2.2

/-- JS Date.prototype.setUTCDate(n): replaces the day of month of the UTC
civil date with n (out-of-range values roll over into adjacent months),
keeping the UTC time of day. -/
def dateSetUTCDate (t n : ℤ) : ℤ :=
  let g := t.fdiv msPerDay
  let c := civilFromDays g
  (daysFromCivil c.1 c.2.1 1 + (n - 1)) * msPerDay + (t - g * msPerDay)

/-- The nowDate of getPoolsEntries (src/unnamed/part_001 lines 31-32):
the current time with the UTC hours, minutes, seconds and milliseconds set
to zero. -/
def nowDateOf (now : ℤ) : ℤ := now.fdiv msPerDay * msPerDay

/-- weeklyDateMin (line 34-35): a copy of nowDate with its UTC day of month
set to getDate() - AVG_DAYS; note the source reads the LOCAL day of month
(getDate) but writes the UTC one (setUTCDate). -/
def weeklyDateMin (now tzOff : ℤ) : ℤ :=
  dateSetUTCDate (nowDateOf now) (dateGetDate (nowDateOf now) tzOff - 7)

/-- weeklyDateMax (lines 36-37): likewise with getDate() - AVG_DAYS + 1. -/
def weeklyDateMax (now tzOff : ℤ) : ℤ :=
  dateSetUTCDate (nowDateOf now) (dateGetDate (nowDateOf now) tzOff - 7 + 1)

/-- yesterdayDateMin (lines 39-40): likewise with getDate() - 1. -/
def yesterdayDateMin (now tzOff : ℤ) : ℤ :=
  dateSetUTCDate (nowDateOf now) (dateGetDate (nowDateOf now) tzOff - 1)

/-- The rows of the snapshot store for one address, in store order. -/
def poolsFor (store : List Pools) (address : String) : List Pools :=
  store.filter (fun p => p.address = address)

/-- findFirst with orderBy blockTime asc: the earliest row for the address
(first in store order among ties). -/
def findFirstAsc (store : List Pools) (address : String) : Option Pools :=
  (poolsFor store address).foldl
    (fun acc p =>
      match acc with
      | none => some p
      | some q => if p.blockTime < q.blockTime then some p else some q)
    none

/-- findFirst with orderBy blockTime desc: the latest row for the address
(first in store order among ties). -/
def findFirstDesc (store : List Pools) (address : String) : Option Pools :=
  (poolsFor store address).foldl
    (fun acc p =>
      match acc with
      | none => some p
      | some q => if q.blockTime < p.blockTime then some p else some q)
    none

/-- findFirst with a blockTime window gte lo, lt hi: some row of the address
in the half-open window (the store picks one; modelled as the first match in
store order). -/
def findFirstInWindow (store : List Pools) (address : String) (lo hi : ℤ) :
    Option Pools :=
  (poolsFor store address).find?
    (fun p => decide (lo ≤ p.blockTime) && decide (p.blockTime < hi))

/-- getPoolsEntries (src/unnamed/part_001 lines 27-91): the four reference
snapshots for an address, with the weekly and yesterday windows computed from
the current time now (milliseconds) on a host with timezone offset tzOff. -/
def getPoolsEntries (store : List Pools) (now tzOff : ℤ) (address : String) :
    PoolsEntries :=
  { firstEntry := findFirstAsc store address
    lastEntry := findFirstDesc store address
    weeklyEntry :=
      findFirstInWindow store address (weeklyDateMin now tzOff) (weeklyDateMax now tzOff)
    yesterdayEntry :=
      findFirstInWindow store address (yesterdayDateMin now tzOff) (nowDateOf now) }

/-- The distinct-address enumeration (findMany with distinct address, mapped
to the address column): the distinct addresses of the store in first-seen
order. -/
def listDistinctAddresses (store : List Pools) : List String :=
  (store.map (fun p => p.address)).eraseDups

/-- The per-address loop shared by getStats (src/unnamed/part_000 lines
98-117) and the part_001 handler (lines 180-192): one getPoolsStats row per
address of the given enumeration, in order. The Option models a thrown
exception aborting the whole computation. -/
def getStats (store : List Pools) (now tzOff : ℤ) (addresses : List String) :
    Option (List PoolsStats) :=
  addresses.mapM (fun a => getPoolsStats a (getPoolsEntries store now tzOff a))

/-- The full handler computation for one table (src/unnamed/part_001 lines
176-194 up to serialization): enumerate the distinct addresses of the store
and run the per-address loop. -/
def handlerRun (store : List Pools) (now tzOff : ℤ) : Option (List PoolsStats) :=
  getStats store now tzOff (listDistinctAddresses store)

/-- A snapshot row with the given address, block time, totalShares and
currentUsdBalance (block height 0; it is informational only). -/
def mkSnap (a : String) (t : ℤ) (sh bal : String) : Pools :=
  { address := a, block := 0, blockTime := t, totalShares := sh,
    currentUsdBalance := bal }

/-- Scenario A of the spec: snapshots at day 0 (ratio 1.0) and day 365
(ratio 1.1), no weekly or yesterday matches. -/
def entriesA : PoolsEntries :=
  { firstEntry := some (mkSnap "A" 0 "1000000" "1000000")
    lastEntry := some (mkSnap "A" (365 * msPerDay) "1000000" "1100000")
    weeklyEntry := none
    yesterdayEntry := none }

/-- A working set whose last snapshot has totalShares zero (the degenerate
ratio case), 365 days after the first snapshot. -/
def entriesZeroSharesLast : PoolsEntries :=
  { firstEntry := some (mkSnap "A" 0 "1000000" "1000000")
    lastEntry := some (mkSnap "A" (365 * msPerDay) "0" "1000000")
    weeklyEntry := none
    yesterdayEntry := none }

/-- A working set whose yesterday snapshot has totalShares zero, with a
healthy last snapshot of ratio 1. -/
def entriesZeroSharesYesterday : PoolsEntries :=
  { firstEntry := some (mkSnap "A" 0 "1000000" "1000000")
    lastEntry := some (mkSnap "A" (365 * msPerDay) "1000000" "1000000")
    weeklyEntry := none
    yesterdayEntry := some (mkSnap "A" (364 * msPerDay) "0" "1000000") }

/-- Scenario B of the spec: a single snapshot ever (first == last), of
ratio 1.1. -/
def entriesB : PoolsEntries :=
  { firstEntry := some (mkSnap "B" 0 "1000000" "1100000")
    lastEntry := some (mkSnap "B" 0 "1000000" "1100000")
    weeklyEntry := none
    yesterdayEntry := none }

/-- Scenario C of the spec: last ratio 2.0 and yesterday ratio 1.99 (the
first snapshot sits 365 days before the last one). -/
def entriesC : PoolsEntries :=
  { firstEntry := some (mkSnap "C" 0 "1000000" "2000000")
    lastEntry := some (mkSnap "C" (365 * msPerDay) "1000000" "2000000")
    weeklyEntry := none
    yesterdayEntry := some (mkSnap "C" (364 * msPerDay) "1000000" "1990000") }

/-- A one-row store: a single snapshot of ratio 1.0 for address P, taken at
the epoch (far outside every selection window of the reference time below). -/
def storeOneSnapshot : List Pools := [mkSnap "P" 0 "1000000" "1000000"]

/-- A reference current time: 2026-10-11 01:00:00 UTC. -/
def refNow : ℤ := daysFromCivil 2026 10 11 * msPerDay + 3600000

/-- The baseApy formula as the spec states it (section 4.2): the last ratio
raised to 365 divided by the elapsed-days count, minus 1, times 100,
formatted to exactly six decimal places. -/
def specBaseApy (lastRatio : ℚ) (days : ℤ) : String :=
  toFixed6 (mulD (subD (powD (.fin lastRatio) (.fin (365 / (days : ℚ)))) (.fin 1))
    (.fin 100))

/-- A working set whose last and yesterday snapshots are both present with
the same (finite, non-degenerate) ratio 1. -/
def entriesEqualRatios : PoolsEntries :=
  { firstEntry := some (mkSnap "D" 0 "1000000" "1000000")
    lastEntry := some (mkSnap "D" (365 * msPerDay) "1000000" "1000000")
    weeklyEntry := none
    yesterdayEntry := some (mkSnap "D" (364 * msPerDay) "1000000" "1000000") }

/-- The row produced for an address with no snapshots at all: every
percentage field is the placeholder and the multiplier is zero. -/
def allPlaceholderRow (a : String) : PoolsStats :=
  { address := a, baseApy := "calculating..", avgApy := "calculating.."
    dailyBasedApr := "calculating..", weeklyBasedApr := "calculating.."
    earnMultiplier := "0" }

/-- Claim C1: the code does NOT turn a zero-share reference snapshot into
placeholders. A last snapshot with totalShares zero makes baseApy the string
Infinity, and a zero-share yesterday snapshot makes earnMultiplier the string
-Infinity and dailyBasedApr the non-placeholder -36500.000000. This theorem
evaluates getPoolsStats at both failing inputs. -/
theorem zeroShareSnapshotEmitsInfinityStrings :
    getPoolsStats "A" entriesZeroSharesLast = some
      { address := "A", baseApy := "Infinity", avgApy := "calculating.."
        dailyBasedApr := "calculating.."
        weeklyBasedApr := "calculating.."
        earnMultiplier := "0" } ∧
    getPoolsStats "A" entriesZeroSharesYesterday = some
      { address := "A", baseApy := "0.000000", avgApy := "calculating.."
        dailyBasedApr := "-36500.000000"
        weeklyBasedApr := "calculating.."
        earnMultiplier := "-Infinity" } := by
  constructor <;> with_unfolding_all decide

/-- Claim C2: for an address whose only snapshot gives a last ratio of 1.1
(so daysElapsedSinceIndexed is 0), the computation indeed does not throw, but
baseApy is the string Infinity, not the placeholder the claim requires: the
exponent 365 / 0 is the JS infinity and Decimal.pow propagates it. -/
theorem singleSnapshotBaseApyIsInfinity :
    getPoolsStats "B" entriesB = some
      { address := "B", baseApy := "Infinity", avgApy := "calculating.."
        dailyBasedApr := "calculating.."
        weeklyBasedApr := "calculating.."
        earnMultiplier := "0" } ∧ daysElapsed entriesB = 0 := by
  constructor <;> with_unfolding_all decide

/-- Claim C3: an address with exactly one snapshot (fewer than 2) does not
get an all-placeholder row: the full pipeline on a one-row store of ratio 1
produces baseApy NaN (1 raised to the JS infinity), not the placeholder. -/
theorem oneSnapshotRowIsNotAllPlaceholders :
    handlerRun storeOneSnapshot refNow 0 = some
      [{ address := "P", baseApy := "NaN", avgApy := "calculating.."
         dailyBasedApr := "calculating.."
         weeklyBasedApr := "calculating.."
         earnMultiplier := "0" }] := by
  with_unfolding_all decide

/-- Claim C7: the selection windows are not independent of the host
timezone. On a UTC host (offset 0) the weekly window is the claimed
half-open day [nowDate - 7 days, nowDate - 6 days) and the yesterday lower
bound is nowDate - 1 day; but on a UTC-5 host (getTimezoneOffset 300) the
local getDate() is one behind the UTC day of month, so the weekly window
minimum becomes nowDate - 8 days. -/
theorem selectionWindowsDependOnHostTimezone :
    (weeklyDateMin refNow 0 = nowDateOf refNow - 7 * msPerDay ∧
     weeklyDateMax refNow 0 = nowDateOf refNow - 6 * msPerDay ∧
     yesterdayDateMin refNow 0 = nowDateOf refNow - msPerDay) ∧
    (weeklyDateMin refNow 300 = nowDateOf refNow - 8 * msPerDay ∧
     ¬ weeklyDateMin refNow 300 = nowDateOf refNow - 7 * msPerDay) := by
  constructor
  · refine ⟨by with_unfolding_all decide, by with_unfolding_all decide, by with_unfolding_all decide⟩
  · refine ⟨by with_unfolding_all decide, by with_unfolding_all decide⟩

/-- Claim C8, counterexample: if the address enumeration hands the loop a
duplicated address, the output does contain duplicate rows — the loop pushes
one row per input address with no deduplication. Evaluated on an empty store
and the enumeration a, a. -/
theorem duplicateAddressesProduceDuplicateRows :
    getStats [] 0 0 ["a", "a"] =
      some [allPlaceholderRow "a", allPlaceholderRow "a"] := by
  with_unfolding_all decide

/-- Claim C8, amended: the engine performs no deduplication; whenever the
enumeration repeats an address, the two successive output rows are
identical (one row per input address, in input order). -/
theorem repeatedAddressYieldsEqualAdjacentRows (store : List Pools)
    (now tzOff : ℤ) (a : String) (as : List String) (out : List PoolsStats)
    (h : getStats store now tzOff (a :: a :: as) = some out) :
    ∃ r rest, out = r :: r :: rest := by
  simp only [getStats, List.mapM_cons] at h
  cases hr : getPoolsStats a (getPoolsEntries store now tzOff a) with
  | none => rw [hr] at h; simp at h
  | some r =>
      rw [hr] at h
      cases hrest : List.mapM
          (fun a => getPoolsStats a (getPoolsEntries store now tzOff a)) as with
      | none => rw [hrest] at h; simp at h
      | some rest =>
          rw [hrest] at h
          simp at h
          exact ⟨r, rest, h.symm⟩

/-- Witness for the amended claim C8 at a concrete input: the empty store
with the duplicated enumeration b, b. -/
theorem repeatedAddressYieldsEqualAdjacentRows_witness :
    ∃ r rest, [allPlaceholderRow "b", allPlaceholderRow "b"] = r :: r :: rest :=
  repeatedAddressYieldsEqualAdjacentRows [] 0 0 "b" []
    [allPlaceholderRow "b", allPlaceholderRow "b"] (by with_unfolding_all decide)

/-- Claim C9: the statistics computation is a deterministic function of the
snapshot store, the current time and the host timezone: two runs over equal
inputs produce equal (hence byte-identical once serialized) outputs. -/
theorem statsComputationDeterministic (s1 s2 : List Pools) (n1 n2 t1 t2 : ℤ)
    (hs : s1 = s2) (hn : n1 = n2) (ht : t1 = t2) :
    handlerRun s1 n1 t1 = handlerRun s2 n2 t2 := by
  subst hs hn ht
  rfl

/-- Witness for claim C9 at a concrete input: two runs over the one-row
store at the reference time. -/
theorem statsComputationDeterministic_witness :
    handlerRun storeOneSnapshot refNow 0 = handlerRun storeOneSnapshot refNow 0 :=
  statsComputationDeterministic storeOneSnapshot storeOneSnapshot refNow refNow 0 0
    rfl rfl rfl

/-- Finite division in divD is exact rational division when the divisor is
nonzero. -/
theorem divD_fin_fin (a b : ℚ) (h : b ≠ 0) :
    divD (.fin a) (.fin b) = .fin (a / b) := by
  simp [divD, h]

/-- Finite subtraction in subD is exact rational subtraction. -/
theorem subD_fin_fin (a b : ℚ) : subD (.fin a) (.fin b) = .fin (a - b) := rfl

/-- calculateRatio on a present snapshot whose two columns decode to u and t
with t nonzero: the two scale divisions cancel and the result is exactly the
rational u / t. -/
theorem calculateRatio_eq_ratio (p : Pools) (u t : ℚ)
    (hu : parseDec p.currentUsdBalance = some u)
    (ht : parseDec p.totalShares = some t) (h0 : t ≠ 0) :
    calculateRatio (some p) = some (some (.fin (u / t))) := by
  have h6 : (1000000 : ℚ) ≠ 0 := by norm_num
  have htd : t / 1000000 ≠ 0 := div_ne_zero h0 h6
  have key : u / 1000000 / (t / 1000000) = u / t := by
    field_simp
  simp only [calculateRatio, decimalOfString, hu, ht, Option.map_some',
    Option.bind_eq_bind, Option.some_bind, USD_SCALE, SHARES_SCALE]
  rw [divD_fin_fin _ _ h6, divD_fin_fin _ _ h6, divD_fin_fin _ _ htd, key]

/-- Claim C4: when the last snapshot is present with a non-degenerate ratio
(nonzero decoded totalShares) and at least one elapsed day, and the other
ratio computations do not throw, the computation succeeds and baseApy is
exactly the spec formula: the last ratio raised to 365 over the elapsed
days, minus 1, times 100, at six decimal places. -/
theorem baseApyMatchesSpecFormula (a : String) (pe : PoolsEntries) (p : Pools)
    (u t : ℚ) (hlast : pe.lastEntry = some p)
    (hu : parseDec p.currentUsdBalance = some u)
    (ht : parseDec p.totalShares = some t) (h0 : t ≠ 0)
    (hw : calculateRatio pe.weeklyEntry ≠ none)
    (hy : calculateRatio pe.yesterdayEntry ≠ none)
    (hd : 1 ≤ daysElapsed pe) :
    ∃ row, getPoolsStats a pe = some row ∧
      row.baseApy = specBaseApy (u / t) (daysElapsed pe) := by
  obtain ⟨w, hw⟩ := Option.ne_none_iff_exists'.mp hw
  obtain ⟨y, hy⟩ := Option.ne_none_iff_exists'.mp hy
  have hlr : calculateRatio pe.lastEntry = some (some (.fin (u / t))) := by
    rw [hlast]
    exact calculateRatio_eq_ratio p u t hu ht h0
  have hdexp : baseApyExponent (daysElapsed pe) =
      .fin (365 / (daysElapsed pe : ℚ)) := by
    unfold baseApyExponent
    rw [if_neg (by omega)]
  simp only [getPoolsStats, hlr, hw, hy, Option.bind_eq_bind, Option.some_bind]
  refine ⟨_, rfl, ?_⟩
  simp only [specBaseApy, hdexp]

/-- Witness for claim C4 at the concrete scenario A: two snapshots 365 days
apart with ratios 1.0 and 1.1 give an elapsed-day count of 365 and a baseApy
of exactly 10.000000. -/
theorem baseApyMatchesSpecFormula_witness :
    (∃ row, getPoolsStats "A" entriesA = some row ∧
      row.baseApy = specBaseApy (1100000 / 1000000) (daysElapsed entriesA)) ∧
    specBaseApy (1100000 / 1000000) (daysElapsed entriesA) = "10.000000" ∧
    daysElapsed entriesA = 365 :=
  ⟨baseApyMatchesSpecFormula "A" entriesA
      (mkSnap "A" (365 * msPerDay) "1000000" "1100000") 1100000 1000000 rfl
      (by decide) (by decide) (by norm_num)
      (by decide) (by decide)
      (by decide),
    by with_unfolding_all decide, by with_unfolding_all decide⟩

/-- Claim C5: calculateRatio maps an absent snapshot to the absent result
with no computation, and a present snapshot to the exact rational quotient of
the decoded balance and the decoded shares (the two scale-by-a-million
divisions cancel exactly). -/
theorem calculateRatioDecodesAndDivides (p : Pools) (u t : ℚ)
    (hu : parseDec p.currentUsdBalance = some u)
    (ht : parseDec p.totalShares = some t) (h0 : t ≠ 0) :
    calculateRatio none = some none ∧
    calculateRatio (some p) = some (some (.fin (u / t))) :=
  ⟨rfl, calculateRatio_eq_ratio p u t hu ht h0⟩

/-- Witness for claim C5 at a concrete snapshot with balance 1100000 and
shares 1000000. -/
theorem calculateRatioDecodesAndDivides_witness :
    calculateRatio none = some none ∧
    calculateRatio (some (mkSnap "A" 0 "1000000" "1100000")) =
      some (some (.fin (1100000 / 1000000))) :=
  calculateRatioDecodesAndDivides (mkSnap "A" 0 "1000000" "1100000")
    1100000 1000000 (by decide) (by decide)
    (by norm_num)

/-- Claim C6: when both the last and yesterday ratios are present,
earnMultiplier is the exact decimal rendering of their difference (no fixed
rounding); when either is absent it is the literal zero string; and in the
concrete scenario C (last ratio 2.0, yesterday ratio 1.99) it is exactly
0.01. -/
theorem earnMultiplierExactDifferenceOrZero :
    (∀ (a : String) (pe : PoolsEntries) (l y : DecVal),
       calculateRatio pe.lastEntry = some (some l) →
       calculateRatio pe.yesterdayEntry = some (some y) →
       calculateRatio pe.weeklyEntry ≠ none →
       ∃ row, getPoolsStats a pe = some row ∧
         row.earnMultiplier = toStringD (subD l y)) ∧
    (∀ (a : String) (pe : PoolsEntries) (row : PoolsStats),
       getPoolsStats a pe = some row →
       (calculateRatio pe.lastEntry = some none ∨
        calculateRatio pe.yesterdayEntry = some none) →
       row.earnMultiplier = "0") ∧
    (getPoolsStats "C" entriesC).map (fun r => r.earnMultiplier) = some "0.01" := by
  refine ⟨?_, ?_, ?_⟩
  · intro a pe l y hl hy hw
    obtain ⟨w, hw⟩ := Option.ne_none_iff_exists'.mp hw
    simp only [getPoolsStats, hl, hy, hw, Option.bind_eq_bind, Option.some_bind]
    exact ⟨_, rfl, rfl⟩
  · intro a pe row hrow hnull
    cases hl : calculateRatio pe.lastEntry with
    | none => rw [getPoolsStats, hl] at hrow; simp at hrow
    | some lr =>
      cases hwq : calculateRatio pe.weeklyEntry with
      | none => rw [getPoolsStats, hl, hwq] at hrow; simp at hrow
      | some wr =>
        cases hyq : calculateRatio pe.yesterdayEntry with
        | none => rw [getPoolsStats, hl, hwq, hyq] at hrow; simp at hrow
        | some yr =>
          simp only [getPoolsStats, hl, hwq, hyq, Option.bind_eq_bind,
            Option.some_bind, Option.some.injEq] at hrow
          rcases hnull with h | h
          · rw [hl] at h
            obtain rfl : lr = none := by injection h
            rw [← hrow]
          · rw [hyq] at h
            obtain rfl : yr = none := by injection h
            rw [← hrow]
            cases lr <;> rfl
  · with_unfolding_all decide

/-- Witness for claim C6 at the concrete scenario C: the difference of the
ratios 2 and 1.99 renders as exactly 0.01. -/
theorem earnMultiplierExactDifferenceOrZero_witness :
    (∃ row, getPoolsStats "C" entriesC = some row ∧
       row.earnMultiplier = toStringD (subD (.fin 2) (.fin (199 / 100)))) ∧
    toStringD (subD (.fin 2) (.fin (199 / 100))) = "0.01" :=
  ⟨earnMultiplierExactDifferenceOrZero.1 "C" entriesC (.fin 2) (.fin (199 / 100))
      (by with_unfolding_all decide) (by with_unfolding_all decide)
      (by with_unfolding_all decide),
    by with_unfolding_all decide⟩

/-- Claim C10: both reference snapshots present with equal finite ratios
yield earnMultiplier zero — the very same literal string the code uses as the
missing-data placeholder (shown by the second part: an absent yesterday
ratio also yields the zero string), so the output cannot distinguish a
genuine zero one-day change from absent data. -/
theorem zeroDailyChangeMatchesPlaceholder :
    (∀ (a : String) (pe : PoolsEntries) (q : ℚ),
       calculateRatio pe.lastEntry = some (some (.fin q)) →
       calculateRatio pe.yesterdayEntry = some (some (.fin q)) →
       calculateRatio pe.weeklyEntry ≠ none →
       ∃ row, getPoolsStats a pe = some row ∧ row.earnMultiplier = "0") ∧
    (∀ (a : String) (pe : PoolsEntries) (row : PoolsStats),
       getPoolsStats a pe = some row →
       calculateRatio pe.yesterdayEntry = some none →
       row.earnMultiplier = "0") := by
  constructor
  · intro a pe q hl hy hw
    obtain ⟨w, hw⟩ := Option.ne_none_iff_exists'.mp hw
    simp only [getPoolsStats, hl, hy, hw, Option.bind_eq_bind, Option.some_bind]
    refine ⟨_, rfl, ?_⟩
    show toStringD (subD (.fin q) (.fin q)) = "0"
    rw [subD_fin_fin, sub_self]
    with_unfolding_all decide
  · intro a pe row hrow hnull
    cases hl : calculateRatio pe.lastEntry with
    | none => rw [getPoolsStats, hl] at hrow; simp at hrow
    | some lr =>
      cases hwq : calculateRatio pe.weeklyEntry with
      | none => rw [getPoolsStats, hl, hwq] at hrow; simp at hrow
      | some wr =>
        simp only [getPoolsStats, hl, hwq, hnull, Option.bind_eq_bind,
          Option.some_bind, Option.some.injEq] at hrow
        rw [← hrow]

/-- Witness for claim C10: equal ratio 1 in both reference snapshots gives
the zero string, and so does the scenario with no yesterday snapshot. -/
theorem zeroDailyChangeMatchesPlaceholder_witness :
    (∃ row, getPoolsStats "D" entriesEqualRatios = some row ∧
       row.earnMultiplier = "0") ∧
    (getPoolsStats "A" entriesA).map (fun r => r.earnMultiplier) = some "0" :=
  ⟨zeroDailyChangeMatchesPlaceholder.1 "D" entriesEqualRatios 1
      (by with_unfolding_all decide) (by with_unfolding_all decide)
      (by with_unfolding_all decide),
    by with_unfolding_all decide⟩

end ApiGateway
